import Mathlib

/-!
Shallow embedding of the pybot-lcd-fuse filesystem kernel
(`src/pybot/lcd_fuse/lcdfs.py` and the dummy device of
`src/pybot/lcd_fuse/dummy.py`).

Pure functions of the Python source are translated to Lean functions;
the mutable state (per-handler cache string, per-entry timestamps) is
threaded explicitly.  Python exceptions become explicit result
constructors (`Errno`, `WRes`).  The hardware side effects
(`set_backlight`, `set_brightness`, ...) only mutate device registers
that no file-system observable reads back, so the `Device` record is
read-only in this development; the observable device inputs
(`get_keypad_state`, `is_locked`, dimensions, capability attributes)
are fields of that record.
-/

/-- POSIX error codes raised through `FuseOSError` in the source.
`OTHER` stands for an uncaught non-`FuseOSError` exception
(e.g. a `TypeError`), which never occurs on the string inputs the
FUSE layer delivers. -/
inductive Errno where
  | ENOENT
  | EACCES
  | OTHER
deriving DecidableEq

/-- Data passed to `FileHandler.write`: either a string (what the FUSE
layer delivers) or a numeric value (used by `LCDFSOperations.reset`). -/
inductive WData where
  | str (s : String)
  | num (n : Int)
deriving DecidableEq

/-- Python `str(data)` on the two value shapes of `WData`. -/
def strOfWData : WData → String
  | .str s => s
  | .num n => toString n

/-- The eight concrete `FileHandler` subclasses of `lcdfs.py`. -/
inductive HandlerKind where
  | backlight
  | brightness
  | contrast
  | leds
  | display
  | keys
  | locked
  | info
deriving DecidableEq

/-- The device object seen through the attributes the file system
reads: dimensions, firmware version, class name, the `hasattr` probes
used to build the directory and the info block, and the two queryable
inputs (`get_keypad_state`, `is_locked`).  `keypadMap` is `some m`
when the device class implements `get_keypad_map`. -/
structure Device where
  height : Nat
  width : Nat
  version : Nat
  modelName : String
  hasBrightness : Bool
  hasContrast : Bool
  hasSetLeds : Bool
  hasIsLocked : Bool
  keypadState : Nat
  locked : Bool
  keypadMap : Option (List (Option Nat))
deriving DecidableEq

/-- The `DummyDevice` of `dummy.py`: 4x20, firmware version 42,
`brightness` and `contrast` properties present, no `set_leds`, no
`is_locked`, no `get_keypad_map`, keypad state always `0b1001 = 9`. -/
def dummyDevice : Device :=
  { height := 4
    width := 20
    version := 42
    modelName := "DummyDevice"
    hasBrightness := true
    hasContrast := true
    hasSetLeds := false
    hasIsLocked := false
    keypadState := 9
    locked := false
    keypadMap := none }

/-! ### Python `int(...)` parsing -/

/-- The whitespace characters stripped by Python 2 `str.strip()` /
`int(...)`. -/
def isPySpace (c : Char) : Bool :=
  c = ' ' ∨ c = '\t' ∨ c = '\n' ∨ c = '\r' ∨ c = '\x0b' ∨ c = '\x0c'

/-- Python `str.strip()`: drop whitespace from both ends. -/
def pyStrip (s : String) : String :=
  String.mk (((s.toList.dropWhile isPySpace).reverse.dropWhile isPySpace).reverse)

/-- Decimal digit value of a character, Python-style (`'0'..'9'`). -/
def digVal (c : Char) : Option Nat :=
  if c.isDigit then some (c.toNat - 48) else none

/-- Accumulating decimal parse of a digit list; fails on the first
non-digit character. -/
def parseDigitsAux (a : Nat) : List Char → Option Nat
  | [] => some a
  | c :: cs =>
    match digVal c with
    | some d => parseDigitsAux (a * 10 + d) cs
    | none => none

/-- Decimal parse of a non-empty digit list (Python `int` rejects an
empty string). -/
def parseDigits : List Char → Option Nat
  | [] => none
  | c :: cs => parseDigitsAux 0 (c :: cs)

/-- Python 2 `int(s)` on an already whitespace-stripped string:
optional sign followed by decimal digits. -/
def parsePyInt (s : String) : Option Int :=
  match s.toList with
  | [] => none
  | c :: rest =>
    if c = '-' then (parseDigits rest).map (fun n => -(n : Int))
    else if c = '+' then (parseDigits rest).map (fun n => (n : Int))
    else (parseDigits (c :: rest)).map (fun n => (n : Int))

/-- Hexadecimal digit value of a character (`0-9a-fA-F`). -/
def hexVal (c : Char) : Option Nat :=
  if c.isDigit then some (c.toNat - 48)
  else if 'a' ≤ c ∧ c ≤ 'f' then some (c.toNat - 87)
  else if 'A' ≤ c ∧ c ≤ 'F' then some (c.toNat - 55)
  else none

/-- Accumulating base-16 parse of a digit list. -/
def parseHexDigitsAux (a : Nat) : List Char → Option Nat
  | [] => some a
  | c :: cs =>
    match hexVal c with
    | some d => parseHexDigitsAux (a * 16 + d) cs
    | none => none

/-- Base-16 parse of a non-empty hex-digit list. -/
def parseHexDigits : List Char → Option Nat
  | [] => none
  | c :: cs => parseHexDigitsAux 0 (c :: cs)

/-- Magnitude part of Python `int(s, 16)`: an optional `0x`/`0X`
marker followed by hex digits (the marker alone is rejected). -/
def parsePyHexCore (cs : List Char) : Option Nat :=
  match cs with
  | '0' :: x :: rest =>
    if (x = 'x' ∨ x = 'X') ∧ rest ≠ [] then parseHexDigits rest
    else parseHexDigits cs
  | _ => parseHexDigits cs

/-- Python 2 `int(s, 16)` on an already-stripped string: optional sign,
optional `0x` marker, hex digits. -/
def parsePyHex (s : String) : Option Int :=
  match s.toList with
  | [] => none
  | c :: rest =>
    if c = '-' then (parsePyHexCore rest).map (fun n => -(n : Int))
    else if c = '+' then (parsePyHexCore rest).map (fun n => (n : Int))
    else (parsePyHexCore (c :: rest)).map (fun n => (n : Int))

/-- Python `int(data)` as used by `FHLeds.do_write`: numbers pass
through, strings are whitespace-stripped then parsed as decimal. -/
def pyInt : WData → Option Int
  | .num n => some n
  | .str s => parsePyInt (pyStrip s)

/-! ### File handlers -/

namespace FileHandler

/-- `min(max_level, max(value, min_level))` of
`FHLevelParameter.normalize_level`. -/
def clampLevel (minL maxL v : Int) : Int := min maxL (max v minL)

/-- The `max_level` class attribute: 1 for `FHBackLight`, 255 for the
other level handlers (irrelevant for non-level kinds). -/
def max_level : HandlerKind → Int
  | .backlight => 1
  | _ => 255

/-- `FHLevelParameter.normalize_level`: numeric input is clamped
directly; string input is stripped, parsed as decimal and on failure
as hexadecimal, then clamped; `none` models the escaping
`ValueError`. -/
def normalize_level (minL maxL : Int) : WData → Option Int
  | .num v => some (clampLevel minL maxL v)
  | .str s =>
    match parsePyInt (pyStrip s) with
    | some v => some (clampLevel minL maxL v)
    | none =>
      match parsePyHex (pyStrip s) with
      | some v => some (clampLevel minL maxL v)
      | none => none

/-- Result of a `do_write` call: the string to be cached (Python
`str(self.do_write(data))`), a `ValueError`, or another exception
(`TypeError` from `len` on a number — unreachable for string data). -/
inductive DWRes where
  | ok (cacheVal : String)
  | valueError
  | typeError
deriving DecidableEq

/-- The `do_write` methods of the concrete handlers.  `keys`,
`locked` and `info` leave the base class attribute `do_write = None`;
the `.typeError` value they return here is never consulted because
`write` raises `EACCES` first. -/
def do_write (k : HandlerKind) (dev : Device) (d : WData) : DWRes :=
  match k with
  | .backlight =>
    match normalize_level 0 (max_level .backlight) d with
    | some v => .ok (toString v)
    | none => .valueError
  | .brightness =>
    match normalize_level 0 (max_level .brightness) d with
    | some v => .ok (toString v)
    | none => .valueError
  | .contrast =>
    match normalize_level 0 (max_level .contrast) d with
    | some v => .ok (toString v)
    | none => .valueError
  | .leds =>
    match pyInt d with
    | some n => .ok (toString n)
    | none => .valueError
  | .display =>
    match d with
    | .str s => .ok (toString s.length)
    | .num _ => .typeError
  | .keys => .typeError
  | .locked => .typeError
  | .info => .typeError

/-- `FileHandler.is_read_only`: true exactly when `do_write` is the
base class' `None` (the `keys`, `locked` and `info` handlers). -/
def is_read_only : HandlerKind → Bool
  | .keys => true
  | .locked => true
  | .info => true
  | _ => false

/-- Outcome of `FileHandler.write`: `EACCES` for read-only handlers,
an uncaught exception, or the new cache string together with the
returned byte count. -/
inductive WRes where
  | eacces
  | raises
  | ok (cache : String) (retval : Nat)
deriving DecidableEq

/-- `FileHandler.write`: raise `EACCES` when read-only; otherwise run
`do_write`, swallowing `ValueError` into a 0 return with the cache
unchanged, and on success cache `str(do_write(data))` and return
`len(str(data))`. -/
def write (k : HandlerKind) (dev : Device) (cache : String) (d : WData) : WRes :=
  if is_read_only k then .eacces
  else
    match do_write k dev d with
    | .ok v => .ok v (strOfWData d).length
    | .valueError => .ok cache 0
    | .typeError => .raises

/-- Left-justification of `%-16s`: pad with spaces to width 16. -/
def padTo16 (s : String) : String :=
  s ++ String.mk (List.replicate (16 - s.length) ' ')

/-- One `"%-16s : %s\n"` line of the info block. -/
def infoLine (k v : String) : String := padTo16 k ++ " : " ++ v ++ "\n"

/-- Python `str` of a boolean. -/
def pyBoolStr (b : Bool) : String := if b then "True" else "False"

/-- The preformatted block built by `FHInfo.__init__` from the device
attributes. -/
def infoText (dev : Device) : String :=
  infoLine "rows" (toString dev.height) ++
  infoLine "cols" (toString dev.width) ++
  infoLine "model" dev.modelName ++
  infoLine "version" (toString dev.version) ++
  infoLine "brightness" (pyBoolStr dev.hasBrightness) ++
  infoLine "contrast" (pyBoolStr dev.hasContrast) ++
  infoLine "locked" (pyBoolStr dev.hasIsLocked)

/-- The `size` property of each handler, as a function of the device
and the current cache: base handlers report cache length plus one,
`FHKeys` first refreshes the cache from the keypad state, `FHLocked`
hard-codes 2, `FHInfo` reports the raw cache length. -/
def size (k : HandlerKind) (dev : Device) (cache : String) : Nat :=
  match k with
  | .keys => (toString dev.keypadState).length + 1
  | .locked => 2
  | .info => cache.length
  | _ => cache.length + 1

/-- Cache content after evaluating the `size` property (`FHKeys.size`
assigns `self.data` as a side effect). -/
def cacheAfterSize (k : HandlerKind) (dev : Device) (cache : String) : String :=
  match k with
  | .keys => toString dev.keypadState
  | _ => cache

/-- The `read` method of each handler: base handlers return the cache
plus a newline, `FHKeys` and `FHLocked` re-query the device, `FHInfo`
returns its preformatted cache unchanged. -/
def read (k : HandlerKind) (dev : Device) (cache : String) : String :=
  match k with
  | .keys => toString dev.keypadState ++ "\n"
  | .locked => (if dev.locked then "1" else "0") ++ "\n"
  | .info => cache
  | _ => cache ++ "\n"

/-- Cache content after a `read` call (`FHKeys.read` and
`FHLocked.read` assign `self.data` before delegating to the base
implementation). -/
def cacheAfterRead (k : HandlerKind) (dev : Device) (cache : String) : String :=
  match k with
  | .keys => toString dev.keypadState
  | .locked => if dev.locked then "1" else "0"
  | _ => cache

/-- Initial cache content when a handler is constructed: the class
attribute `data = ''` for every handler except `FHInfo`, which
formats its block in `__init__`. -/
def initCache (k : HandlerKind) (dev : Device) : String :=
  match k with
  | .info => infoText dev
  | _ => ""

end FileHandler

/-! ### Directory and FUSE operations -/

/-- `FSEntryDescriptor` together with the handler's mutable cache:
the handler kind, its `data` cache, and the `mtime`/`atime` stats. -/
structure Entry where
  kind : HandlerKind
  cache : String
  mtime : Int
  atime : Int
deriving DecidableEq

/-- Lookup in the `_content` mapping (first match in the association
list). -/
def entryLookup : List (String × Entry) → String → Option Entry
  | [], _ => none
  | (n, e) :: rest, k => if n = k then some e else entryLookup rest k

/-- Replacement of the entry bound to a name (first occurrence). -/
def entryUpdate : List (String × Entry) → String → Entry → List (String × Entry)
  | [], _, _ => []
  | (n, e) :: rest, k, v =>
    if n = k then (n, v) :: rest else (n, e) :: entryUpdate rest k v

/-- State of `LCDFSOperations`: the device, the `_content` mapping,
the module-level `_file_timestamp`, `_uid` and `_gid` values. -/
structure FS where
  dev : Device
  entries : List (String × Entry)
  mountTime : Int
  uid : Nat
  gid : Nat
deriving DecidableEq

/-- The stat dictionary returned by `getattr`.  `st_size` and
`st_blocks` are absent (`none`) for the root directory. -/
structure Stat where
  st_uid : Nat
  st_gid : Nat
  st_ctime : Int
  st_atime : Int
  st_mtime : Int
  st_nlink : Nat
  st_mode : Nat
  st_size : Option Nat
  st_blocks : Option Nat
deriving DecidableEq

namespace LCDFSOperations

open FileHandler

/-- Leading-slash stripping performed by `_get_descriptor`. -/
def stripSlash (p : String) : String :=
  match p.toList with
  | '/' :: rest => String.mk rest
  | _ => p

/-- `LCDFSOperations._get_descriptor`: strip the leading `/` and look
the name up in `_content` (`none` models the escaping `KeyError`). -/
def getDescriptor (fs : FS) (path : String) : Option Entry :=
  entryLookup fs.entries (stripSlash path)

/-- Fresh entry with both timestamps at the module timestamp. -/
def initEntry (k : HandlerKind) (dev : Device) (t : Int) : Entry :=
  { kind := k, cache := FileHandler.initCache k dev, mtime := t, atime := t }

/-- The `_content` mapping built in `LCDFSOperations.__init__`: the
four unconditional entries, then one entry per `hasattr` probe of the
device class (`brightness`, `contrast`, `set_leds`, `is_locked`). -/
def baseEntries (dev : Device) (t : Int) : List (String × Entry) :=
  [("backlight", initEntry .backlight dev t),
   ("keys", initEntry .keys dev t),
   ("display", initEntry .display dev t),
   ("info", initEntry .info dev t)] ++
  (if dev.hasBrightness then [("brightness", initEntry .brightness dev t)] else []) ++
  (if dev.hasContrast then [("contrast", initEntry .contrast dev t)] else []) ++
  (if dev.hasSetLeds then [("leds", initEntry .leds dev t)] else []) ++
  (if dev.hasIsLocked then [("locked", initEntry .locked dev t)] else [])

/-- One `handler.write` call of `reset`: a missing name is the
swallowed `KeyError`; the `eacces`/`raises` branches re-raise in the
source but never fire on the names `reset` uses (all writable). -/
def resetWrite (fs : FS) (name : String) (v : WData) : FS :=
  match entryLookup fs.entries name with
  | none => fs
  | some e =>
    match FileHandler.write e.kind fs.dev e.cache v with
    | .ok c _ => { fs with entries := entryUpdate fs.entries name { e with cache := c } }
    | _ => fs

/-- `LCDFSOperations.reset`: write the `DEFAULT_CONTENTS` values, then
a form feed to the display. -/
def reset (fs : FS) : FS :=
  resetWrite
    (resetWrite
      (resetWrite
        (resetWrite
          (resetWrite fs "backlight" (.num 1))
          "brightness" (.num 255))
        "contrast" (.num 255))
      "leds" (.num 0))
    "display" (.str "\x0c")

/-- `LCDFSOperations.__init__`: build the capability-dependent
`_content` mapping at timestamp `t` with the process `uid`/`gid`
pair, then apply `reset`. -/
def mount (dev : Device) (t : Int) (uid gid : Nat) : FS :=
  reset { dev := dev, entries := baseEntries dev t, mountTime := t, uid := uid, gid := gid }

/-- `LCDFSOperations.readdir`: `['.', '..']` followed by the content
names. -/
def readdir (fs : FS) : List String :=
  "." :: ".." :: fs.entries.map Prod.fst

/-- `stat.S_IFDIR`. -/
def S_IFDIR : Nat := 0o040000

/-- `stat.S_IFREG`. -/
def S_IFREG : Nat := 0o100000

/-- `LCDFSOperations.getattr`: the root reports the mount-time stats
with directory mode; a known file overrides `st_nlink`, `st_mode`,
`st_size`, `st_mtime` and `st_blocks` (note: not `st_atime`); an
unknown path raises `ENOENT`. -/
def getattr (fs : FS) (path : String) : Except Errno Stat :=
  if path = "/" then
    .ok { st_uid := fs.uid, st_gid := fs.gid, st_ctime := fs.mountTime,
          st_atime := fs.mountTime, st_mtime := fs.mountTime,
          st_nlink := 2, st_mode := S_IFDIR ||| 0o755,
          st_size := none, st_blocks := none }
  else
    match getDescriptor fs path with
    | none => .error .ENOENT
    | some e =>
      let sz := FileHandler.size e.kind fs.dev e.cache
      .ok { st_uid := fs.uid, st_gid := fs.gid, st_ctime := fs.mountTime,
            st_atime := fs.mountTime, st_mtime := e.mtime,
            st_nlink := 1,
            st_mode := S_IFREG ||| (if FileHandler.is_read_only e.kind then 0o444 else 0o666),
            st_size := some sz, st_blocks := some ((sz + 511) / 512) }

/-- `LCDFSOperations.read`: unknown path raises `ENOENT`; otherwise
set the entry's `atime` to `now`, return `None` (empty) when `offset`
is at or past the handler size, and the handler's full `read()`
payload otherwise.  The `sz` request argument is only logged.  The
cache side effects of `FHKeys.size`/`FHKeys.read`/`FHLocked.read` are
applied to the stored entry. -/
def read (fs : FS) (path : String) (sz offset : Nat) (now : Int) :
    Except Errno (Option String) × FS :=
  match getDescriptor fs path with
  | none => (.error .ENOENT, fs)
  | some e =>
    let e1 : Entry := { e with atime := now }
    let hsz := FileHandler.size e1.kind fs.dev e1.cache
    let e2 : Entry := { e1 with cache := FileHandler.cacheAfterSize e1.kind fs.dev e1.cache }
    if offset ≥ hsz then
      (.ok none, { fs with entries := entryUpdate fs.entries (stripSlash path) e2 })
    else
      let payload := FileHandler.read e2.kind fs.dev e2.cache
      let e3 : Entry := { e2 with cache := FileHandler.cacheAfterRead e2.kind fs.dev e2.cache }
      (.ok (some payload), { fs with entries := entryUpdate fs.entries (stripSlash path) e3 })

/-- `LCDFSOperations.write`: unknown path raises `ENOENT`; an
`EACCES` from the handler propagates before `mtime` is touched;
otherwise the cache is replaced, `mtime` is set to `now` and the
handler's byte count is returned.  The `offset` argument is ignored. -/
def write (fs : FS) (path : String) (data : String) (offset : Nat) (now : Int) :
    Except Errno Nat × FS :=
  match getDescriptor fs path with
  | none => (.error .ENOENT, fs)
  | some e =>
    match FileHandler.write e.kind fs.dev e.cache (.str data) with
    | .eacces => (.error .EACCES, fs)
    | .raises => (.error .OTHER, fs)
    | .ok c n =>
      (.ok n, { fs with entries := entryUpdate fs.entries (stripSlash path)
                          { e with cache := c, mtime := now } })

end LCDFSOperations

/-! ### Keypad monitor -/

/-- Linux input event codes used by `_kp_monitor_loop` (from the
`evdev.ecodes` table, values of `linux/input-event-codes.h`). -/
def KEY_ESC : Nat := 1

/-- `ecodes.KEY_OK`. -/
def KEY_OK : Nat := 352

/-- `ecodes.KEY_NEXT`. -/
def KEY_NEXT : Nat := 407

/-- `ecodes.KEY_PREVIOUS`. -/
def KEY_PREVIOUS : Nat := 412

/-- `ecodes.KEY_NUMERIC_0`. -/
def KEY_NUMERIC_0 : Nat := 512

/-- `ecodes.KEY_NUMERIC_1` .. `KEY_NUMERIC_9` are the nine codes
following `KEY_NUMERIC_0`. -/
def KEY_NUMERIC (d : Nat) : Nat := 512 + d

/-- `ecodes.KEY_NUMERIC_STAR`. -/
def KEY_NUMERIC_STAR : Nat := 522

/-- `ecodes.KEY_NUMERIC_POUND`. -/
def KEY_NUMERIC_POUND : Nat := 523

namespace KeypadMonitor

/-- The 12-slot fallback map installed when the device has no
`get_keypad_map` (keys 1..9, `*`, 0, `#` of the 4x3 keypad). -/
def default_keypad_map : List (Option Nat) :=
  [some (KEY_NUMERIC 1), some (KEY_NUMERIC 2), some (KEY_NUMERIC 3),
   some (KEY_NUMERIC 4), some (KEY_NUMERIC 5), some (KEY_NUMERIC 6),
   some (KEY_NUMERIC 7), some (KEY_NUMERIC 8), some (KEY_NUMERIC 9),
   some KEY_NUMERIC_STAR, some KEY_NUMERIC_0, some KEY_NUMERIC_POUND]

/-- The keypad map `_kp_monitor_loop` ends up using: the device's
`get_keypad_map()` result when the method exists, the default map on
the `AttributeError` fallback. -/
def effective_keypad_map (dev : Device) : List (Option Nat) :=
  match dev.keypadMap with
  | some m => m
  | none => default_keypad_map

/-- The relevance bitmask: one bit per slot, set when the slot is not
`None`, built by the `reversed`/shift loop. -/
def keypad_mask (m : List (Option Nat)) : Nat :=
  m.reverse.foldl (fun acc k => 2 * acc + (if k.isSome then 1 else 0)) 0

/-- The non-absent key codes of a map. -/
def mapKeyCodes (m : List (Option Nat)) : List Nat := m.filterMap id

/-- The `EV_KEY` capability list passed to `UInput` by
`_kp_monitor_loop`: the source hard-codes
`[KEY_PREVIOUS, KEY_NEXT, KEY_ESC, KEY_OK]`, independent of the
keypad map it has just computed. -/
def kp_capability (dev : Device) : List Nat :=
  [KEY_PREVIOUS, KEY_NEXT, KEY_ESC, KEY_OK]

end KeypadMonitor

/-- Decidable equality of `Except` results, used to evaluate the
concrete states of the counterexamples and witnesses. -/
instance {A B : Type} [DecidableEq A] [DecidableEq B] : DecidableEq (Except A B) :=
  fun a b =>
    match a, b with
    | .ok x, .ok y => if h : x = y then .isTrue (by rw [h]) else .isFalse (by simp [h])
    | .error x, .error y => if h : x = y then .isTrue (by rw [h]) else .isFalse (by simp [h])
    | .ok _, .error _ => .isFalse (by simp)
    | .error _, .ok _ => .isFalse (by simp)

/-! ### Spec-side helper definitions (used to state the claims) -/

/-- Python slice `s[a:b]` (for `0 ≤ a ≤ b ≤ len(s)`), used to state
the slice-read claim. -/
def strSlice (s : String) (a b : Nat) : String :=
  ((s.toList.drop a).take (b - a)).asString

/-- Character-list prefix test, used to state "starts with". -/
def startsWithStr (s p : String) : Bool :=
  s.toList.take p.toList.length == p.toList

/-- Character-list substring test, used to state "contains". -/
def containsSub (s p : String) : Bool :=
  (List.range (s.toList.length + 1)).any
    (fun i => (s.toList.drop i).take p.toList.length == p.toList)

/-! ### Helper lemmas -/

/-- Looking up a key after updating it yields the new entry, provided
the key was present. -/
theorem entryLookup_update_self (l : List (String × Entry)) (k : String) (e v : Entry)
    (h : entryLookup l k = some e) : entryLookup (entryUpdate l k v) k = some v := by
  induction l with
  | nil => simp [entryLookup] at h
  | cons p rest ih =>
    obtain ⟨n, e0⟩ := p
    by_cases hn : n = k
    · simp [entryLookup, entryUpdate, hn]
    · simp [entryLookup, entryUpdate, hn] at h ⊢
      exact ih h

/-- The cache refresh performed by the `size` property does not change
what `read` subsequently returns. -/
theorem read_cacheAfterSize (k : HandlerKind) (dev : Device) (c : String) :
    FileHandler.read k dev (FileHandler.cacheAfterSize k dev c) = FileHandler.read k dev c := by
  cases k <;> rfl

/-! ### Claims -/

/-- C1: for every handler kind and every state (device and cache),
the `size` property equals the byte length of the string `read()`
would return; `read()` is the (possibly device-refreshed) cache plus
one trailing newline for every handler except `Info`, which returns
its raw preformatted block. -/
theorem c1_size_matches_read (k : HandlerKind) (dev : Device) (c : String) :
    FileHandler.size k dev c = (FileHandler.read k dev c).length
    ∧ FileHandler.read k dev c =
        (if k = HandlerKind.info then FileHandler.cacheAfterRead k dev c
         else FileHandler.cacheAfterRead k dev c ++ "\n") := by
  cases k <;> cases hl : dev.locked <;>
    simp [FileHandler.size, FileHandler.read, FileHandler.cacheAfterRead,
      String.length_append, hl] <;> rfl

/-- C2: writing anything to a read-only entry (`keys`, `locked`,
`info`) fails with `EACCES` and leaves the file system state
unchanged, so a subsequent read returns exactly what it would have
returned before the write. -/
theorem c2_readonly_write_eacces (fs : FS) (path : String) (e : Entry)
    (data : String) (offset : Nat) (now : Int)
    (h : LCDFSOperations.getDescriptor fs path = some e)
    (hk : e.kind = .keys ∨ e.kind = .locked ∨ e.kind = .info) :
    LCDFSOperations.write fs path data offset now = (.error .EACCES, fs)
    ∧ ∀ sz off t2,
        LCDFSOperations.read (LCDFSOperations.write fs path data offset now).2 path sz off t2
          = LCDFSOperations.read fs path sz off t2 := by
  have hro : FileHandler.is_read_only e.kind = true := by
    rcases hk with h1 | h1 | h1 <;> simp [h1, FileHandler.is_read_only]
  have hw : FileHandler.write e.kind fs.dev e.cache (.str data) = .eacces := by
    simp [FileHandler.write, hro]
  have hmain : LCDFSOperations.write fs path data offset now = (.error .EACCES, fs) := by
    simp [LCDFSOperations.write, h, hw]
  exact ⟨hmain, fun sz off t2 => by rw [hmain]⟩

/-- C2 witness: on the mounted dummy device, writing `"0"` to
`/keys` fails with `EACCES` and the state is untouched. -/
theorem c2_witness :
    LCDFSOperations.write (LCDFSOperations.mount dummyDevice 1000 7 13) "/keys" "0" 0 2000
      = (.error .EACCES, LCDFSOperations.mount dummyDevice 1000 7 13) :=
  (c2_readonly_write_eacces (LCDFSOperations.mount dummyDevice 1000 7 13) "/keys"
    ⟨.keys, "", 1000, 1000⟩ "0" 0 2000 (by decide) (Or.inl rfl)).1

/-- C3: for the level handlers (`backlight` with `max_level` 1,
`brightness` and `contrast` with `max_level` 255), writing an integer
`v` — as a number, or as any text Python's decimal parse reads as `v`
— caches the decimal string of `min(max(v, 0), max_level)` and a
subsequent read returns it followed by a newline; in particular
`FHBackLight` stores `0`, `1`, `1` for the texts `"0"`, `"1"`,
`"2"`. -/
theorem c3_level_clamp (k : HandlerKind) (dev : Device) (c : String) (v : Int)
    (hk : k = .backlight ∨ k = .brightness ∨ k = .contrast) :
    (FileHandler.write k dev c (.num v)
        = .ok (toString (FileHandler.clampLevel 0 (FileHandler.max_level k) v))
              (toString v).length
      ∧ FileHandler.read k dev (toString (FileHandler.clampLevel 0 (FileHandler.max_level k) v))
        = toString (FileHandler.clampLevel 0 (FileHandler.max_level k) v) ++ "\n")
    ∧ (∀ s : String, parsePyInt (pyStrip s) = some v →
        FileHandler.write k dev c (.str s)
          = .ok (toString (FileHandler.clampLevel 0 (FileHandler.max_level k) v)) s.length)
    ∧ (FileHandler.write .backlight dev c (.str "0") = .ok "0" 1
       ∧ FileHandler.write .backlight dev c (.str "1") = .ok "1" 1
       ∧ FileHandler.write .backlight dev c (.str "2") = .ok "1" 1) := by
  refine ⟨⟨?_, ?_⟩, fun s hs => ?_, rfl, rfl, rfl⟩
  · rcases hk with rfl | rfl | rfl <;> rfl
  · rcases hk with rfl | rfl | rfl <;> rfl
  · rcases hk with rfl | rfl | rfl <;>
      simp [FileHandler.write, FileHandler.do_write, FileHandler.normalize_level,
        FileHandler.is_read_only, strOfWData, hs]

/-- C3 witness: concrete clamped writes on the dummy device:
`brightness` text `"300"` stores `"255"` returning 3, `backlight`
text `"2"` stores `"1"` returning 1. -/
theorem c3_witness :
    FileHandler.write .brightness dummyDevice "" (.str "300") = .ok "255" 3
    ∧ FileHandler.write .backlight dummyDevice "" (.str "2") = .ok "1" 1 := by
  have h1 := (c3_level_clamp .brightness dummyDevice "" 300 (Or.inr (Or.inl rfl))).2.1
    "300" (by decide)
  have h2 := (c3_level_clamp .backlight dummyDevice "" 2 (Or.inl rfl)).2.1 "2" (by decide)
  exact ⟨Eq.trans h1 (by decide), Eq.trans h2 (by decide)⟩

/-- C6: when a writable handler cannot interpret the written bytes
(its `do_write` raises `ValueError`), `write` returns 0 and the cache
is unchanged, so a later read sees the previous value; in particular
`Leds.write("abc")` returns 0 preserving the cache. -/
theorem c6_parse_error_returns_zero (k : HandlerKind) (dev : Device) (c : String) (d : WData)
    (hw : FileHandler.is_read_only k = false)
    (hp : FileHandler.do_write k dev d = .valueError) :
    FileHandler.write k dev c d = .ok c 0
    ∧ FileHandler.write .leds dev c (.str "abc") = .ok c 0 := by
  constructor
  · simp [FileHandler.write, hw, hp]
  · rfl

/-- C6 witness: `Leds.write("abc")` on the dummy device returns 0
with the cache `"0"` preserved. -/
theorem c6_witness :
    FileHandler.write .leds dummyDevice "0" (.str "abc") = .ok "0" 0 :=
  (c6_parse_error_returns_zero .leds dummyDevice "0" (.str "abc") (by decide) (by decide)).1

/-- C7 (amended): every display write returns the input length as the
accepted byte count, but a cache IS kept — the decimal string of the
last write's byte count — and a read returns that string followed by
a newline, not the empty string. -/
theorem c7_display_write (dev : Device) (c s : String) :
    FileHandler.write .display dev c (.str s) = .ok (toString s.length) s.length
    ∧ FileHandler.read .display dev (toString s.length) = toString s.length ++ "\n" :=
  ⟨rfl, rfl⟩

/-- C7 counterexample: in the state reached by mounting the dummy
device (`reset` has written the one-byte form feed to `display`),
reading `display` returns `"1\n"` — the cached byte count — and not
the empty string the claim asserts. -/
theorem c7_counterexample :
    (LCDFSOperations.read (LCDFSOperations.mount dummyDevice 1000 7 13) "/display" 4096 0 2000).1
      = .ok (some "1\n")
    ∧ ("1\n" : String) ≠ "" := by decide

/-- C10: for every present path, whenever the handler's `write` does
not raise — returning a byte count, which includes the
rejected-parse case reporting 0 — the FUSE `write` operation stamps
the entry's `mtime` with the current time and returns that count. -/
theorem c10_mtime_updated (fs : FS) (path data : String) (offset : Nat) (now : Int)
    (e : Entry) (c : String) (n : Nat)
    (h : LCDFSOperations.getDescriptor fs path = some e)
    (hw : FileHandler.write e.kind fs.dev e.cache (.str data) = .ok c n) :
    (LCDFSOperations.write fs path data offset now).1 = .ok n
    ∧ entryLookup (LCDFSOperations.write fs path data offset now).2.entries
        (LCDFSOperations.stripSlash path) = some ⟨e.kind, c, now, e.atime⟩ := by
  have hup := entryLookup_update_self fs.entries (LCDFSOperations.stripSlash path) e
    ⟨e.kind, c, now, e.atime⟩ h
  constructor
  · simp [LCDFSOperations.write, h, hw]
  · simpa [LCDFSOperations.write, h, hw] using hup

/-- C10 witness: on the mounted dummy device, writing the
unparseable text `"zz"` to `/backlight` at time 2000 returns 0 yet
still sets the entry's mtime to 2000 (cache left at `"1"`). -/
theorem c10_witness :
    (LCDFSOperations.write (LCDFSOperations.mount dummyDevice 1000 7 13)
        "/backlight" "zz" 0 2000).1 = .ok 0
    ∧ entryLookup (LCDFSOperations.write (LCDFSOperations.mount dummyDevice 1000 7 13)
        "/backlight" "zz" 0 2000).2.entries "backlight"
        = some ⟨.backlight, "1", 2000, 1000⟩ := by
  have h := c10_mtime_updated (LCDFSOperations.mount dummyDevice 1000 7 13) "/backlight" "zz"
    0 2000 ⟨.backlight, "1", 1000, 1000⟩ "1" 0 (by decide) (by decide)
  exact ⟨h.1, h.2⟩

/-- C4 counterexample: on the mounted dummy device, a FUSE read of
`/keys` with `size = 1` at `offset = 1` returns the full payload
`"9\n"`, while the claimed slice `payload[1:2]` is `"\n"` — the
source never slices. -/
theorem c4_counterexample :
    (LCDFSOperations.read (LCDFSOperations.mount dummyDevice 1000 7 13) "/keys" 1 1 2000).1
      = .ok (some "9\n")
    ∧ strSlice "9\n" 1 2 = "\n"
    ∧ ("9\n" : String) ≠ "\n" := by decide

/-- C4 (amended): for every existing path, FUSE `read` returns empty
(`None`) when `offset ≥ handler.size`, and otherwise returns the
handler's FULL current payload, regardless of `offset` and `size`. -/
theorem c4_read_full_payload (fs : FS) (path : String) (sz offset : Nat) (now : Int)
    (e : Entry) (h : LCDFSOperations.getDescriptor fs path = some e) :
    (offset ≥ FileHandler.size e.kind fs.dev e.cache →
      (LCDFSOperations.read fs path sz offset now).1 = .ok none)
    ∧ (offset < FileHandler.size e.kind fs.dev e.cache →
      (LCDFSOperations.read fs path sz offset now).1
        = .ok (some (FileHandler.read e.kind fs.dev e.cache))) := by
  constructor <;> intro ho
  · simp [LCDFSOperations.read, h, ho]
  · have hno : ¬ (offset ≥ FileHandler.size e.kind fs.dev e.cache) := by omega
    simp [LCDFSOperations.read, h, hno, read_cacheAfterSize]

/-- C4 witness: on the mounted dummy device, reading `/keys` past the
end (offset 5) gives empty, and from offset 0 gives `"9\n"`. -/
theorem c4_witness :
    (LCDFSOperations.read (LCDFSOperations.mount dummyDevice 1000 7 13) "/keys" 4096 5 2000).1
      = .ok none
    ∧ (LCDFSOperations.read (LCDFSOperations.mount dummyDevice 1000 7 13) "/keys" 4096 0 2000).1
      = .ok (some "9\n") := by
  have h1 := (c4_read_full_payload (LCDFSOperations.mount dummyDevice 1000 7 13) "/keys"
    4096 5 2000 ⟨.keys, "", 1000, 1000⟩ (by decide)).1 (by decide)
  have h2 := (c4_read_full_payload (LCDFSOperations.mount dummyDevice 1000 7 13) "/keys"
    4096 0 2000 ⟨.keys, "", 1000, 1000⟩ (by decide)).2 (by decide)
  exact ⟨h1, Eq.trans h2 (by decide)⟩

/-- C5 counterexample: after a FUSE read at time 2000 has set the
`backlight` entry's `atime` to 2000, `getattr` still reports the
mount timestamp 1000 as `st_atime` — the source updates only
`st_mtime` from the entry, never `st_atime` — refuting the claim's
"atime equal to the entry's atime". -/
theorem c5_counterexample :
    (entryLookup ((LCDFSOperations.read (LCDFSOperations.mount dummyDevice 1000 7 13)
        "/backlight" 4096 0 2000).2).entries "backlight").map Entry.atime = some 2000
    ∧ LCDFSOperations.getattr ((LCDFSOperations.read (LCDFSOperations.mount dummyDevice 1000 7 13)
        "/backlight" 4096 0 2000).2) "/backlight"
      = .ok { st_uid := 7, st_gid := 13, st_ctime := 1000, st_atime := 1000, st_mtime := 1000,
              st_nlink := 1, st_mode := 33206, st_size := some 2, st_blocks := some 1 }
    ∧ (1000 : Int) ≠ 2000 := by decide

/-- C5 (amended): `getattr` on `/` reports `DIR | 0755`, `nlink` 2,
mount-time timestamps and the module-level uid and gid (the gid the
`lcdfs` group resolved to at import — there is no fallback in the
source); on a known file it reports `REG | 0444` for read-only
handlers and `REG | 0666` otherwise, `nlink` 1, the handler's size,
the entry's `mtime`, ceiling `size/512` blocks — but the MOUNT
timestamp as `st_atime`, not the entry's `atime`; an unknown path
fails with `ENOENT`. -/
theorem c5_getattr (fs : FS) (path : String) :
    (LCDFSOperations.getattr fs "/"
      = .ok { st_uid := fs.uid, st_gid := fs.gid, st_ctime := fs.mountTime,
              st_atime := fs.mountTime, st_mtime := fs.mountTime, st_nlink := 2,
              st_mode := LCDFSOperations.S_IFDIR ||| 0o755,
              st_size := none, st_blocks := none })
    ∧ (∀ e : Entry, path ≠ "/" → LCDFSOperations.getDescriptor fs path = some e →
        LCDFSOperations.getattr fs path
          = .ok { st_uid := fs.uid, st_gid := fs.gid, st_ctime := fs.mountTime,
                  st_atime := fs.mountTime, st_mtime := e.mtime, st_nlink := 1,
                  st_mode := LCDFSOperations.S_IFREG |||
                    (if FileHandler.is_read_only e.kind then 0o444 else 0o666),
                  st_size := some (FileHandler.size e.kind fs.dev e.cache),
                  st_blocks := some ((FileHandler.size e.kind fs.dev e.cache + 511) / 512) })
    ∧ (path ≠ "/" → LCDFSOperations.getDescriptor fs path = none →
        LCDFSOperations.getattr fs path = .error .ENOENT) := by
  refine ⟨by simp [LCDFSOperations.getattr], fun e hne h => ?_, fun hne h => ?_⟩ <;>
    simp [LCDFSOperations.getattr, hne, h]

/-- C5 witness: concrete `getattr` results on the mounted dummy
device — the root directory, the read-only `/keys` file (mode
`0100444`, size 2), and `ENOENT` on an unknown name. -/
theorem c5_witness :
    LCDFSOperations.getattr (LCDFSOperations.mount dummyDevice 1000 7 13) "/"
      = .ok { st_uid := 7, st_gid := 13, st_ctime := 1000, st_atime := 1000, st_mtime := 1000,
              st_nlink := 2, st_mode := 16877, st_size := none, st_blocks := none }
    ∧ LCDFSOperations.getattr (LCDFSOperations.mount dummyDevice 1000 7 13) "/keys"
      = .ok { st_uid := 7, st_gid := 13, st_ctime := 1000, st_atime := 1000, st_mtime := 1000,
              st_nlink := 1, st_mode := 33060, st_size := some 2, st_blocks := some 1 }
    ∧ LCDFSOperations.getattr (LCDFSOperations.mount dummyDevice 1000 7 13) "/nope"
      = .error .ENOENT := by
  have h0 := (c5_getattr (LCDFSOperations.mount dummyDevice 1000 7 13) "/").1
  have h1 := (c5_getattr (LCDFSOperations.mount dummyDevice 1000 7 13) "/keys").2.1
    ⟨.keys, "", 1000, 1000⟩ (by decide) (by decide)
  have h2 := (c5_getattr (LCDFSOperations.mount dummyDevice 1000 7 13) "/nope").2.2
    (by decide) (by decide)
  exact ⟨Eq.trans h0 (by decide), Eq.trans h1 (by decide), h2⟩

set_option maxRecDepth 40000 in
/-- C8 counterexample: the directory built over the dummy device also
contains `brightness` and `contrast` — `DummyDevice` exposes both as
properties — so `readdir` does not yield exactly the six claimed
entries, and the info block reports `brightness : True`, not
`False`. -/
theorem c8_counterexample :
    "brightness" ∈ LCDFSOperations.readdir (LCDFSOperations.mount dummyDevice 1000 7 13)
    ∧ "brightness" ∉ ([".", "..", "backlight", "keys", "display", "info"] : List String)
    ∧ containsSub (FileHandler.infoText dummyDevice) "brightness       : False\n" = false
    ∧ containsSub (FileHandler.infoText dummyDevice) "brightness       : True\n" = true := by
  decide

set_option maxRecDepth 40000 in
/-- C8 (amended): mounting over the dummy device yields a directory
whose listing consists exactly of `.`, `..`, `backlight`, `keys`,
`display`, `info`, `brightness` and `contrast`; reading `info`
returns the preformatted block, which starts with
`"rows             : 4\n"` and contains
`"brightness       : True\n"`. -/
theorem c8_mount_dummy :
    (∀ x : String, x ∈ LCDFSOperations.readdir (LCDFSOperations.mount dummyDevice 1000 7 13) ↔
      (x = "." ∨ x = ".." ∨ x = "backlight" ∨ x = "keys" ∨ x = "display" ∨ x = "info"
        ∨ x = "brightness" ∨ x = "contrast"))
    ∧ (LCDFSOperations.read (LCDFSOperations.mount dummyDevice 1000 7 13) "/info" 4096 0 2000).1
        = .ok (some (FileHandler.infoText dummyDevice))
    ∧ startsWithStr (FileHandler.infoText dummyDevice) "rows             : 4\n" = true
    ∧ containsSub (FileHandler.infoText dummyDevice) "brightness       : True\n" = true := by
  refine ⟨fun x => ?_, by decide, by decide, by decide⟩
  have hrd : LCDFSOperations.readdir (LCDFSOperations.mount dummyDevice 1000 7 13)
      = [".", "..", "backlight", "keys", "display", "info", "brightness", "contrast"] := by
    decide
  rw [hrd]
  simp

/-- C9: the `EV_KEY` capability `_kp_monitor_loop` hands to `UInput`
is the hard-coded list `[KEY_PREVIOUS, KEY_NEXT, KEY_ESC, KEY_OK]`;
with the dummy device (no `get_keypad_map`, hence the default
numeric-keypad map) the map's key codes — here `KEY_NUMERIC_1` — are
not in the advertised capability, contradicting the claimed "key
capability equal to the union of the non-absent key codes in the
keypad map". -/
theorem c9_capability_hardcoded :
    KeypadMonitor.kp_capability dummyDevice = [KEY_PREVIOUS, KEY_NEXT, KEY_ESC, KEY_OK]
    ∧ KEY_NUMERIC 1 ∈ KeypadMonitor.mapKeyCodes (KeypadMonitor.effective_keypad_map dummyDevice)
    ∧ KEY_NUMERIC 1 ∉ KeypadMonitor.kp_capability dummyDevice := by decide
